import Mathlib

/-!
Shallow embedding of the Frame.io feedback exporter (`src/app.py`,
class `FrameIOFeedbackExporter` plus the module-level helpers after it).

Modelling conventions, used throughout:
* JSON dictionaries reaching the program become structures whose fields are
  `Option`-typed exactly where the source reads them with `dict.get` and can
  observe absence (a site-specific `getD` mirrors each `get(key, default)`).
  Fields only ever copied verbatim or compared against non-empty literals are
  plain-typed when absence is behaviourally indistinguishable from the
  default (noted at the field).
* Network I/O becomes explicit environment functions passed as parameters:
  one function per remote endpoint family, returning what the corresponding
  Python helper returns after its own try/except wrapper (failures collapse
  to the helper's fallback value, e.g. `[]` or `None`).
* Python numbers in annotation geometry become `Rat` (the source only
  multiplies/divides by exact constants).
* Recursion that Python bounds only by the shape of the remote tree is given
  an explicit fuel parameter; fuel exhaustion returns the function's empty
  value.  All theorems either hold for every fuel or take fuel large enough
  that the concrete tree is fully explored.
* Wall-clock sleeps are recorded as data: `make_request` returns the list of
  back-off waits it would perform (the fixed 0.2 s pre-request delay is an
  unconditional constant and is not recorded).
-/

/-- A remote item (asset/folder node) as the program sees it: the fields of
the JSON dictionaries that `src/app.py` actually reads.  `type` is `Option`
because `get('type')` with no default (lines 145, 165, 308) yields `None`
while `get('type', '')` (line 75) yields `''`; both call sites are modelled
with the matching `getD`.  `id` is assumed present (the source indexes
`asset['id']` unguarded). -/
structure Item where
  id : String
  type : Option String := none
  name : Option String := none
  parent_id : Option String := none
deriving DecidableEq, Repr

/-- The `anonymous_user` sub-object that can appear inside a comment's
`author` dictionary in API responses.  `src/app.py` never reads it; it is in
the data model so that statements about it can be expressed. -/
structure AnonUser where
  email : Option String := none
  name : Option String := none
deriving DecidableEq, Repr

/-- A comment's raw `author` dictionary: the identity fields the fallback
chain of `process_comment_author` (src/app.py lines 323-333) touches, plus
the `anonymous_user` sub-object it does not touch. -/
structure Author where
  name : Option String := none
  display_name : Option String := none
  full_name : Option String := none
  email : Option String := none
  anonymous_user : Option AnonUser := none
deriving DecidableEq, Repr

/-- A raw annotation dictionary as read by `process_comment_annotations`
(src/app.py lines 224-250).  Every coordinate field is read with
`get(key, 0)` and the points list with `get('points', [])`, so absence is
indistinguishable from the default and the fields are plain-typed.  `type`
is read with `get('type')`; the result is only tested for membership in the
recognised-kind list, so a missing type behaves like the non-member `""`. -/
structure Ann where
  type : String := ""
  timestamp : Rat := 0
  points : List (Rat × Rat) := []
  x : Rat := 0
  y : Rat := 0
  width : Rat := 0
  height : Rat := 0
deriving DecidableEq, Repr

/-- A raw comment dictionary as read in `generate_report` (src/app.py lines
360-377): `get('text', ...)` and `get('created_at', ...)` observe absence,
`get('author', {})` defaults to an empty author, `get('annotations', [])`
defaults to no annotations. -/
structure Comment where
  text : Option String := none
  author : Author := {}
  created_at : Option String := none
  anns : List Ann := []
deriving DecidableEq, Repr

/-- Boolean test for `pat` occurring as a contiguous subsequence of `l`;
models Python's `in` test on strings (via their character lists). -/
def has_sub_seq (pat : List Char) : List Char → Bool
  | [] => pat.isPrefixOf []
  | c :: rest => pat.isPrefixOf (c :: rest) || has_sub_seq pat rest

/-- Character-list lowering of a string; models Python's `str.lower()`
applied before a substring test. -/
def lower_chars (s : String) : List Char := s.data.map Char.toLower

/-- Python truthiness of an optional string: `None` and `''` are falsy. -/
def py_truthy : Option String → Bool
  | none => false
  | some s => !(s = "")

/-- Python's `a or b` where `a` is an optional string and `b` a string:
yields `a`'s value when it is truthy, otherwise `b` (even if `b` is
falsy). -/
def py_or (a : Option String) (b : String) : String :=
  match a with
  | some s => if s = "" then b else s
  | none => b

/-- Outcome of one HTTP attempt: a parsed JSON body (abstracted to `Nat`) or
an HTTP error status raised by `response.raise_for_status()`. -/
inductive HttpResult where
  | ok (body : Nat)
  | err (status : Nat)
deriving DecidableEq, Repr

/-- Loop body of `make_request` (src/app.py lines 41-56), translated with an
explicit remaining-iteration count (`remaining = max_retries - attempt`, the
number of iterations `for attempt in range(max_retries)` still has).  The
first output component is the list of back-off waits performed (in seconds);
the second is `some (Except.ok body)` for a success, `some (Except.error s)`
for a raised HTTP error with status `s`, and `none` for the `return None`
reached when the loop exhausts without returning or raising.  On status 429
with `attempt < max_retries - 1` the code waits
`retry_delay * 4 ** attempt` seconds and retries; any other raised status,
or a 429 on the final attempt, is re-raised immediately with no wait. -/
def request_loop (retry_delay : Nat) (responses : Nat → HttpResult)
    (max_retries : Nat) (attempt : Nat) : Nat → List Nat × Option (Except Nat Nat)
  | 0 => ([], none)
  | remaining + 1 =>
    match responses attempt with
    | .ok body => ([], some (Except.ok body))
    | .err status =>
      if status = 429 ∧ attempt < max_retries - 1 then
        let rest := request_loop retry_delay responses max_retries (attempt + 1) remaining
        (retry_delay * 4 ^ attempt :: rest.1, rest.2)
      else ([], some (Except.error status))

/-- `make_request` (src/app.py lines 41-56): run the retry loop from attempt
0 with `max_retries` iterations available.  `responses` gives the outcome of
the `attempt`-th HTTP attempt. -/
def make_request (max_retries retry_delay : Nat) (responses : Nat → HttpResult) :
    List Nat × Option (Except Nat Nat) :=
  request_loop retry_delay responses max_retries 0 max_retries

/-- The leaf-asset kinds recognised by `process_folder`
(src/app.py line 88). -/
def leaf_kinds : List String :=
  ["file", "version_stack", "video", "image", "pdf", "audio", "review", "asset"]

/-- `should_process_folder` (src/app.py lines 58-63): when the
include-old-folders flag is off and the lowered folder name contains the
substring `"old"`, the folder is excluded. -/
def should_process_folder (include_old_folders : Bool) (folder_name : String) : Bool :=
  if !include_old_folders && has_sub_seq "old".data (lower_chars folder_name) then
    false
  else
    true

/-- Concatenation of the asset components of per-child results, in child
order (the `assets.extend`/`assets.append` accumulation of
`process_folder`). -/
def collect_assets (rs : List (List Item × List String)) : List Item :=
  rs.foldr (fun p acc => p.1 ++ acc) []

/-- Concatenation of the fetch-trace components of per-child results, in
child order. -/
def collect_trace (rs : List (List Item × List String)) : List String :=
  rs.foldr (fun p acc => p.2 ++ acc) []

/-- `process_folder` (src/app.py lines 65-93).  `contents` is the
environment behind `get_folder_contents` (lines 173-192: endpoint probing
whose total failure yields `[]`).  Output: the leaf assets found, and the
trace of folder ids whose contents were fetched, in fetch order.  The
source keeps no visited set and recurses on every folder child that passes
`should_process_folder`; recursion depth is bounded here by `fuel` (the
source is bounded only by the remote tree, and a cyclic tree would recurse
without bound).  A subfolder's name is read with `get('name', 'Unnamed')`
(line 76). -/
def process_folder (include_old_folders : Bool) (contents : String → List Item) :
    Nat → String → String → List Item × List String
  | 0, _, _ => ([], [])
  | fuel + 1, folder_id, folder_name =>
    if should_process_folder include_old_folders folder_name then
      let results := (contents folder_id).map (fun item =>
        let item_type := item.type.getD ""
        let item_name := item.name.getD "Unnamed"
        if item_type = "folder" then
          if should_process_folder include_old_folders item_name then
            process_folder include_old_folders contents fuel item.id item_name
          else ([], [])
        else if leaf_kinds.contains item_type then ([item], [])
        else ([], []))
      (collect_assets results, folder_id :: collect_trace results)
    else ([], [])

/-- `get_all_assets` (src/app.py lines 280-321).  Environments:
`review_links` models `get_review_links` (review-link ids per project;
fetch failure yields `[]`); `link_items` models the
`review_links/{id}/items` call (the `asset_id` of each entry, `none` when
the entry has no `asset_id`; a failed call contributes `[]` and the loop
continues with the next link); `details` models `get_item_details` (`none`
on failure).  Folder-typed details are walked with `process_folder`; other
details are appended directly.  The second output component is the
folder-contents fetch trace accumulated across all walks.  The source
passes `asset_details.get('name')` (possibly `None`) as the folder name;
the model passes the name with default `""` (the difference is observable
only for a nameless folder with the include-old flag off, where the source
would raise on `None.lower()` — no claim exercises that corner). -/
def get_all_assets (include_old_folders : Bool)
    (review_links : String → List String)
    (link_items : String → List (Option String))
    (details : String → Option Item)
    (contents : String → List Item)
    (fuel : Nat) (project_id : String) : List Item × List String :=
  (review_links project_id).foldl (fun acc review_link_id =>
    (link_items review_link_id).foldl (fun acc2 entry =>
      match entry with
      | none => acc2
      | some asset_id =>
        match details asset_id with
        | none => acc2
        | some asset_details =>
          if asset_details.type = some "folder" then
            let sub := process_folder include_old_folders contents fuel asset_id
              (asset_details.name.getD "")
            (acc2.1 ++ sub.1, acc2.2 ++ sub.2)
          else
            (acc2.1 ++ [asset_details], acc2.2)) acc) ([], [])

/-- The fixed comment colour palette of `get_comment_color`
(src/app.py lines 27-39). -/
def comment_colors : List String :=
  ["#FF6B6B", "#4ECDC4", "#45B7D1", "#96CEB4", "#FFAD60", "#9D94FF", "#FF9999", "#88D8B0"]

/-- `get_comment_color` (src/app.py lines 27-39): palette entry at
`comment_index mod palette size`. -/
def get_comment_color (comment_index : Nat) : String :=
  comment_colors.getD (comment_index % comment_colors.length) ""

/-- `process_comment_author` (src/app.py lines 323-333): Python `or`-chain
over `author.get('name')`, `author.get('display_name')`,
`author.get('full_name')`, `author.get('email', 'Unknown User')`.  The
`anonymous_user` sub-object is never consulted. -/
def process_comment_author (comment : Comment) : String :=
  let author := comment.author
  py_or author.name
    (py_or author.display_name
      (py_or author.full_name
        (author.email.getD "Unknown User")))

/-- The annotation kinds recognised by `process_comment_annotations`
(src/app.py line 235). -/
def ann_kinds : List String := ["rectangle", "circle", "arrow", "line", "freehand"]

/-- A processed annotation record as built by `process_comment_annotations`
(src/app.py lines 236-245): the raw geometry fields copied verbatim plus the
parent comment's colour. -/
structure AnnData where
  type : String
  timestamp : Rat
  color : String
  points : List (Rat × Rat)
  x : Rat
  y : Rat
  width : Rat
  height : Rat
deriving DecidableEq, Repr

/-- `process_comment_annotations` (src/app.py lines 224-250): `None` when
the comment has no annotations; otherwise the records for the
recognised-kind annotations (unrecognised kinds are dropped), or `None`
when none are recognised.  The conditional-append loop is rendered as
`filterMap`. -/
def process_comment_annotations (comment : Comment) (comment_color : String) :
    Option (List AnnData) :=
  if comment.anns = [] then none
  else
    let annotation_data := comment.anns.filterMap (fun a =>
      if ann_kinds.contains a.type then
        some { type := a.type, timestamp := a.timestamp, color := comment_color,
               points := a.points, x := a.x, y := a.y,
               width := a.width, height := a.height }
      else none)
    if annotation_data = [] then none else some annotation_data

/-- `scale_point` (src/app.py lines 442-444): scale a raw coordinate to a
percentage of the frame dimension. -/
def scale_point (point dimension : Rat) : Rat := (point * 100) / dimension

/-- Module-level `generate_svg_overlay` (src/app.py lines 435-440): returns
`""` for an empty annotation list; for a non-empty list the function body
ends after the debug write, so Python returns `None` (modelled `none`).
The SVG-building block that would apply `scale_point` sits at lines
446-498, after the `return` inside `scale_point`, and is unreachable. -/
def generate_svg_overlay (annotation_list : List AnnData) : Option String :=
  if annotation_list = [] then some "" else none

/-- A processed comment as appended in `generate_report`
(src/app.py lines 369-377). -/
structure PComment where
  text : String
  author : String
  timestamp : String
  timestamp_raw : String
  anns_data : Option (List AnnData)
  color : String
  has_anns : Bool
deriving DecidableEq, Repr

/-- A per-asset report entry as appended to `folder_feedback`
(src/app.py lines 383-389). -/
structure AssetEntry where
  asset_name : String
  asset_type : String
  thumbnail_url : Option String
  asset_url : String
  comments : List PComment
deriving DecidableEq, Repr

/-- The `folder_feedback` accumulator of `generate_report`: an
insertion-ordered dictionary from folder path to asset entries, modelled as
an association list. -/
abbrev FolderFeedback := List (String × List AssetEntry)

/-- What a read of the checkpoint file `frameio_progress_{project_id}.pkl`
can observe: no file, an unreadable/corrupt/mis-shaped pickle (anything that
makes the `try` body of `load_progress` raise), or a well-formed payload
`{feedback_data, processed_ids, timestamp}` as written by
`save_progress`. -/
inductive StoreRead where
  | missing
  | corrupt
  | ok (feedback_data : FolderFeedback) (processed_ids : List String) (saved_at : String)
deriving DecidableEq, Repr

/-- `save_progress` (src/app.py lines 95-103), modelled as the checkpoint
file state its `pickle.dump` leaves behind.  `generate_report` never calls
it: in this file it is referenced by no other definition, mirroring the
source, where the function is defined but dead. -/
def save_progress (feedback_data : FolderFeedback) (processed_ids : List String)
    (timestamp : String) : StoreRead :=
  StoreRead.ok feedback_data processed_ids timestamp

/-- `load_progress` (src/app.py lines 105-113): return the stored pair on a
successful read, and `([], set())` whenever the file is absent or the read
raises (the bare `except` swallows every failure; nothing propagates). -/
def load_progress : StoreRead → FolderFeedback × List String
  | .missing => ([], [])
  | .corrupt => ([], [])
  | .ok feedback_data processed_ids _ => (feedback_data, processed_ids)

/-- `get_folder_path` (src/app.py lines 151-171).  `details` is the
environment behind `get_item_details` (`none` when the fetch fails or
yields nothing).  `cache` is the `folders` memo dictionary, of which only
the key set affects the result; a cached parent id short-circuits to the
final `return "/"`.  Every failure path — no `parent_id`, falsy (empty)
`parent_id`, failed detail fetch, non-folder parent, or any exception
swallowed by the `except` — falls through to `"/"`; the function never
raises.  Recursion along the parent chain is fueled; fuel exhaustion
returns the same root marker. -/
def get_folder_path (details : String → Option Item) :
    Nat → List String → Item → String
  | 0, _, _ => "/"
  | fuel + 1, cache, asset =>
    match asset.parent_id with
    | none => "/"
    | some parent_id =>
      if parent_id = "" then "/"
      else if cache.contains parent_id then "/"
      else
        match details parent_id with
        | none => "/"
        | some parent =>
          if parent.type = some "folder" then
            get_folder_path details fuel (parent_id :: cache) parent
              ++ "/" ++ parent.name.getD "Unknown Folder"
          else "/"

/-- Stable insertion into an ascending list (helper of `sort_by`). -/
def insert_sorted {α : Type} (le : α → α → Bool) (x : α) : List α → List α
  | [] => [x]
  | y :: ys => if le x y then x :: y :: ys else y :: insert_sorted le x ys

/-- Stable ascending sort; models Python's stable `list.sort(key=...)`. -/
def sort_by {α : Type} (le : α → α → Bool) : List α → List α
  | [] => []
  | x :: xs => insert_sorted le x (sort_by le xs)

/-- Lexicographic comparison of `(folder_path, asset name)` sort keys;
models Python tuple comparison in `organize_assets_by_folder`. -/
def key_le (a b : String × String) : Bool :=
  match compare a.1 b.1 with
  | .lt => true
  | .gt => false
  | .eq => compare a.2 b.2 ≠ Ordering.gt

/-- `organize_assets_by_folder` (src/app.py lines 263-278): resolve each
asset's folder path (a fresh memo dictionary per asset, since
`get_folder_path` is called with `folders=None`), then sort by
`(folder_path, asset.get('name', ''))`. -/
def organize_assets_by_folder (details : String → Option Item) (fuel : Nat)
    (assets : List Item) : List (Item × String) :=
  let organized := assets.map (fun a => (a, get_folder_path details fuel [] a))
  sort_by (fun x y => key_le (x.2, x.1.name.getD "") (y.2, y.1.name.getD "")) organized

/-- Dictionary update `folder_feedback[folder_path] = []` guarded by
`if folder_path not in folder_feedback` (src/app.py lines 353-354). -/
def ff_ensure (ff : FolderFeedback) (path : String) : FolderFeedback :=
  if (ff.map Prod.fst).contains path then ff else ff ++ [(path, [])]

/-- Append of an entry to `folder_feedback[folder_path]`
(src/app.py line 383). -/
def ff_append (ff : FolderFeedback) (path : String) (entry : AssetEntry) : FolderFeedback :=
  ff.map (fun pe => if pe.1 = path then (pe.1, pe.2 ++ [entry]) else pe)

/-- Result of a `generate_report` run.  `report` is the final
`folder_feedback` aggregate (the value handed to the renderer);
`comments_fetched` lists the asset ids whose comments were fetched, in
order; `saves` lists the `save_progress` payloads persisted during the run
— it is `[]` because the source never calls `save_progress`; `final_store`
is the checkpoint file state after the run — the input state unchanged,
because the source neither writes nor deletes the checkpoint file. -/
structure GRResult where
  report : FolderFeedback
  comments_fetched : List String
  saves : List (FolderFeedback × List String)
  final_store : StoreRead
deriving DecidableEq, Repr

/-- Per-asset loop body of `generate_report` (src/app.py lines 349-393),
threading `(folder_feedback, comments_fetched)`.  `comments_env` models
`get_asset_comments` (fetch failure yields `[]`); `thumb` abstracts
`get_asset_preview` (lines 194-222, thumbnail-field probing — no claim
depends on its internals); `fmt` abstracts
`datetime.fromisoformat(...).strftime('%Y-%m-%d %H:%M')`, with `none` for a
parse failure, which the inner `except` turns into skipping that comment;
`now_iso` is `datetime.now().isoformat()`, the default `created_at`. -/
def report_step (comments_env : String → List Comment) (thumb : Item → Option String)
    (fmt : String → Option String) (now_iso : String)
    (state : FolderFeedback × List String) (organized_asset : Item × String) :
    FolderFeedback × List String :=
  let asset := organized_asset.1
  let folder_path := organized_asset.2
  let ff := ff_ensure state.1 folder_path
  let comments := comments_env asset.id
  let fetched := state.2 ++ [asset.id]
  if comments = [] then (ff, fetched)
  else
    let processed_comments := comments.enum.filterMap (fun ic =>
      let comment_idx := ic.1
      let comment := ic.2
      let author_name := process_comment_author comment
      let comment_text := comment.text.getD "No comment text"
      let created_at := comment.created_at.getD now_iso
      let comment_color := get_comment_color comment_idx
      let anns_data := process_comment_annotations comment comment_color
      match fmt created_at with
      | none => none
      | some display_ts =>
        some { text := comment_text, author := author_name, timestamp := display_ts,
               timestamp_raw := created_at, anns_data := anns_data,
               color := comment_color, has_anns := anns_data.isSome })
    if processed_comments = [] then (ff, fetched)
    else
      (ff_append ff folder_path
        { asset_name := asset.name.getD "Unnamed Asset",
          asset_type := asset.type.getD "unknown",
          thumbnail_url := thumb asset,
          asset_url := "https://app.frame.io/player/" ++ asset.id,
          comments := processed_comments }, fetched)

/-- `generate_report` (src/app.py lines 335-395) up to the final
`folder_feedback` aggregate (the terminal `self.render_html_report(...)`
call is templating, outside every claim).  Steps, as in the source:
collect assets via `get_all_assets`; load the checkpoint — the loaded
`feedback_data` is bound and never used again (source line 340); filter out
assets whose id is in `processed_ids`; organise by folder; run the per-asset
loop from an empty `folder_feedback`.  No progress is saved and the
checkpoint is never cleared, hence `saves := []` and
`final_store := store`. -/
def generate_report (include_old_folders : Bool) (store : StoreRead)
    (review_links : String → List String)
    (link_items : String → List (Option String))
    (details : String → Option Item)
    (contents : String → List Item)
    (comments_env : String → List Comment)
    (thumb : Item → Option String)
    (fmt : String → Option String)
    (now_iso : String) (fuel : Nat) (project_id : String) : GRResult :=
  let assets := (get_all_assets include_old_folders review_links link_items details
    contents fuel project_id).1
  let loaded := load_progress store
  let _feedback_data := loaded.1
  let processed_ids := loaded.2
  let assets_to_process := assets.filter (fun a => !(processed_ids.contains a.id))
  let organized_assets := organize_assets_by_folder details fuel assets_to_process
  let final := organized_assets.foldl (report_step comments_env thumb fmt now_iso) ([], [])
  { report := final.1, comments_fetched := final.2, saves := [], final_store := store }

/-- Spec-side description of the author fallback chain as amended: consult
only the author object's `name`, `display_name`, `full_name`, `email`
fields in that order (Python truthiness), defaulting to `"Unknown User"`;
the `anonymous_user` sub-object plays no role.  Written from the amended
claim's words, to be compared with `process_comment_author`. -/
def resolve_author_spec (a : Author) : String :=
  if py_truthy a.name then a.name.getD ""
  else if py_truthy a.display_name then a.display_name.getD ""
  else if py_truthy a.full_name then a.full_name.getD ""
  else a.email.getD "Unknown User"

/-- A leaf asset used by concrete scenarios. -/
def item_alpha : Item := { id := "a1", type := some "file", name := some "Alpha" }

/-- A second leaf asset used by concrete scenarios. -/
def item_beta : Item := { id := "a2", type := some "file", name := some "Beta" }

/-- Scenario for C1: one project with two review links. -/
def c1_review_links : String → List String := fun p => if p = "p1" then ["rl1", "rl2"] else []

/-- Scenario for C1: both review links reference the same container `F`. -/
def c1_link_items : String → List (Option String) := fun _ => [some "F"]

/-- Scenario for C1: the shared container. -/
def c1_folder : Item := { id := "F", type := some "folder", name := some "Media" }

/-- Scenario for C1: a clip inside the shared container. -/
def c1_clip : Item := { id := "v1", type := some "file", name := some "Clip" }

/-- Scenario for C1: item-details environment. -/
def c1_details : String → Option Item := fun i => if i = "F" then some c1_folder else none

/-- Scenario for C1: folder-contents environment. -/
def c1_contents : String → List Item := fun i => if i = "F" then [c1_clip] else []

/-- Witness scenario for the amended C1: a subfolder listed twice among its
parent's children. -/
def c1w_sub : Item := { id := "A", type := some "folder", name := some "Sub" }

/-- Witness scenario for the amended C1: contents environment with the
duplicated child. -/
def c1w_contents : String → List Item :=
  fun i => if i = "root" then [c1w_sub, c1w_sub] else if i = "A" then [item_alpha] else []

/-- Scenario for C5: the claim's rectangle annotation, as the record
`process_comment_annotations` would build for it. -/
def c5_rect : AnnData :=
  { type := "rectangle", timestamp := 0, color := "#FF6B6B", points := [],
    x := 50, y := 25, width := 20, height := 10 }

/-- Scenario for C6: a comment whose only identity field is
`author.anonymous_user.email`. -/
def c6_comment : Comment :=
  { author := { anonymous_user := some { email := some "a@b.com" } } }

/-- Scenario for C3: review-link environment (one link). -/
def c3_review_links : String → List String := fun p => if p = "p1" then ["rl1"] else []

/-- Scenario for C3: the link lists both assets. -/
def c3_link_items : String → List (Option String) :=
  fun l => if l = "rl1" then [some "a1", some "a2"] else []

/-- Scenario for C3: item-details environment. -/
def c3_details : String → Option Item :=
  fun i => if i = "a1" then some item_alpha else if i = "a2" then some item_beta else none

/-- Scenario for C3: no folders, so no contents to fetch. -/
def c3_contents : String → List Item := fun _ => []

/-- Scenario for C3: one comment per asset. -/
def c3_comments : String → List Comment :=
  fun i =>
    if i = "a1" then
      [{ text := some "Looks good", author := { name := some "Dana" },
         created_at := some "2024-01-01T10:00:00" }]
    else if i = "a2" then
      [{ text := some "Needs work", author := { name := some "Dana" },
         created_at := some "2024-01-02T10:00:00" }]
    else []

/-- Scenario for C3: no thumbnails resolve. -/
def c3_thumb : Item → Option String := fun _ => none

/-- Scenario for C3: every timestamp parses; formatting is the identity. -/
def c3_fmt : String → Option String := fun s => some s

/-- The report entry the run builds for `item_alpha`. -/
def c3_alpha_entry : AssetEntry :=
  { asset_name := "Alpha", asset_type := "file", thumbnail_url := none,
    asset_url := "https://app.frame.io/player/a1",
    comments := [{ text := "Looks good", author := "Dana",
                   timestamp := "2024-01-01T10:00:00",
                   timestamp_raw := "2024-01-01T10:00:00",
                   anns_data := none, color := "#FF6B6B", has_anns := false }] }

/-- The report entry the run builds for `item_beta`. -/
def c3_beta_entry : AssetEntry :=
  { asset_name := "Beta", asset_type := "file", thumbnail_url := none,
    asset_url := "https://app.frame.io/player/a2",
    comments := [{ text := "Needs work", author := "Dana",
                   timestamp := "2024-01-02T10:00:00",
                   timestamp_raw := "2024-01-02T10:00:00",
                   anns_data := none, color := "#FF6B6B", has_anns := false }] }

/-- Scenario for C3: the checkpoint a run interrupted after `item_alpha`
would have saved (partial report holding Alpha's feedback, processed set
`{a1}`). -/
def c3_checkpoint : StoreRead :=
  StoreRead.ok [("/", [c3_alpha_entry])] ["a1"] "2024-01-15T00:00:00"

/-- Scenario for C3: the uninterrupted run. -/
def c3_fresh : GRResult :=
  generate_report false StoreRead.missing c3_review_links c3_link_items c3_details
    c3_contents c3_comments c3_thumb c3_fmt "2024-02-01T00:00:00" 3 "p1"

/-- Scenario for C3: the resumed run over the same remote data. -/
def c3_resumed : GRResult :=
  generate_report false c3_checkpoint c3_review_links c3_link_items c3_details
    c3_contents c3_comments c3_thumb c3_fmt "2024-02-01T00:00:00" 3 "p1"

/-- Witness scenario for C10: the parent resolves to a non-folder item. -/
def c10_details : String → Option Item :=
  fun i => if i = "pp" then some { id := "pp", type := some "file" } else none

/-- Witness scenario for C10: an asset whose parent is the non-folder
item. -/
def c10_asset : Item := { id := "x", type := some "file", parent_id := some "pp" }

/-- Scenario for C8: a root folder holding one recognised leaf asset. -/
def c8_contents : String → List Item := fun i => if i = "root" then [item_alpha] else []

theorem py_or_eq (a : Option String) (b : String) :
    py_or a b = if py_truthy a = true then a.getD "" else b := by
  cases a with
  | none => simp [py_or, py_truthy]
  | some s =>
    by_cases hs : s = "" <;> simp [py_or, py_truthy, hs]

theorem collect_assets_cons (r : List Item × List String) (rs : List (List Item × List String)) :
    collect_assets (r :: rs) = r.1 ++ collect_assets rs := rfl

theorem mem_collect_assets {l : List Item} {f : Item → List Item × List String} {x : Item}
    (hx : x ∈ l) (hfx : (f x).1 = [x]) : x ∈ collect_assets (l.map f) := by
  induction l with
  | nil => cases hx
  | cons y ys ih =>
    rcases List.mem_cons.mp hx with h | h
    · subst h
      rw [List.map_cons, collect_assets_cons, hfx]
      exact List.mem_append_left _ (List.mem_singleton.mpr rfl)
    · rw [List.map_cons, collect_assets_cons]
      exact List.mem_append_right _ (ih h)

/-- C2 (counterexample): with max-retries 3, base retry delay 5 and every
attempt hitting the rate-limit status, the back-off waits are not the
claimed sequence 5, 20, 80. -/
theorem c2_counterexample :
    (make_request 3 5 (fun _ => HttpResult.err 429)).1 ≠ [5, 20, 80] := by decide

/-- C2 (amended): with max-retries 3 and base retry delay 5, a request
rate-limited on every attempt waits 5 then 20 seconds
(`delay = 5 * 4 ^ attempt` for attempt 0 and 1), performs no third wait,
and surfaces the fatal 429 error on the 3rd attempt. -/
theorem c2_backoff (responses : Nat → HttpResult)
    (h : ∀ n, responses n = HttpResult.err 429) :
    make_request 3 5 responses = ([5, 20], some (Except.error 429)) := by
  simp [make_request, request_loop, h 0, h 1, h 2]

theorem c2_backoff_witness :
    make_request 3 5 (fun _ => HttpResult.err 429) = ([5, 20], some (Except.error 429)) :=
  c2_backoff (fun _ => HttpResult.err 429) (fun _ => rfl)

/-- C5: `scale_point` computes exactly the claimed percentages for the
rectangle `{x 50, y 25, width 20, height 10}` against a 200 by 112 frame
(25, 625/28 = 22.321..., 10, 125/14 = 8.928...), but `generate_svg_overlay`
applied to that annotation yields no overlay at all: its reachable body ends
before the scaling code, which sits unreachable after the `return` of
`scale_point`. -/
theorem c5_overlay_never_scales :
    generate_svg_overlay [c5_rect] = none ∧
    scale_point 50 200 = 25 ∧ scale_point 25 112 = 625/28 ∧
    scale_point 20 200 = 10 ∧ scale_point 10 112 = 125/14 := by
  refine ⟨rfl, ?_, ?_, ?_, ?_⟩ <;> norm_num [scale_point]

/-- C6 (counterexample): a comment whose only identity field is
`author.anonymous_user.email = "a@b.com"` resolves to `"Unknown User"`, not
to the email. -/
theorem c6_counterexample :
    process_comment_author c6_comment = "Unknown User" ∧
    process_comment_author c6_comment ≠ "a@b.com" := by
  exact ⟨rfl, by decide⟩

/-- C6 (amended): author resolution tries, in order, the `name`,
`display_name`, `full_name` and `email` fields of the comment's author
object (Python truthiness, `"Unknown User"` default); the `anonymous_user`
sub-object is never consulted.  Stated as equality with the spec-side chain
`resolve_author_spec`, which reads no `anonymous_user` field. -/
theorem c6_author_chain (c : Comment) :
    process_comment_author c = resolve_author_spec c.author := by
  simp only [process_comment_author, resolve_author_spec, py_or_eq]

/-- C7: a container whose name matches the exclusion policy (flag off and
lowered name containing `"old"`) makes the walker return an empty asset
list with an empty fetch trace: its contents are never fetched and no
descendant reaches the output. -/
theorem c7_excluded_never_fetched (contents : String → List Item) (fuel : Nat)
    (folder_id folder_name : String)
    (h : has_sub_seq "old".data (lower_chars folder_name) = true) :
    process_folder false contents fuel folder_id folder_name = ([], []) := by
  have hs : should_process_folder false folder_name = false := by
    simp [should_process_folder, h]
  cases fuel with
  | zero => rfl
  | succ n => simp [process_folder, hs]

theorem c7_excluded_never_fetched_witness :
    has_sub_seq "old".data (lower_chars "OLD footage") = true ∧
    process_folder false (fun _ => [item_alpha]) 5 "f9" "OLD footage" = ([], []) :=
  ⟨by decide, c7_excluded_never_fetched (fun _ => [item_alpha]) 5 "f9" "OLD footage" (by decide)⟩

/-- C9: loading progress yields the pair (empty report, empty processed
set) whenever the checkpoint file is missing or unreadable/corrupt, and
never propagates a failure (`load_progress` is total). -/
theorem c9_load_defaults (r : StoreRead)
    (h : r = StoreRead.missing ∨ r = StoreRead.corrupt) :
    load_progress r = ([], []) := by
  rcases h with rfl | rfl <;> rfl

theorem c9_load_defaults_witness : load_progress StoreRead.corrupt = ([], []) :=
  c9_load_defaults StoreRead.corrupt (Or.inr rfl)

/-- C10: folder-path resolution returns the root marker `"/"` whenever the
asset has no (or an empty) `parent_id`, the parent-details fetch fails or
yields nothing, or the fetched parent is not a folder; the embedded
function is total, reflecting that every failure path in the source is
swallowed and falls through to `return "/"`. -/
theorem c10_path_fallback (details : String → Option Item) (fuel : Nat)
    (cache : List String) (asset : Item)
    (h : asset.parent_id = none ∨ asset.parent_id = some "" ∨
      (∃ p, asset.parent_id = some p ∧ details p = none) ∨
      (∃ p parent, asset.parent_id = some p ∧ details p = some parent ∧
        parent.type ≠ some "folder")) :
    get_folder_path details fuel cache asset = "/" := by
  cases fuel with
  | zero => rfl
  | succ n =>
    rcases h with h | h | ⟨p, hp, hd⟩ | ⟨p, parent, hp, hd, ht⟩
    · simp [get_folder_path, h]
    · simp [get_folder_path, h]
    · simp [get_folder_path, hp, hd]
    · simp [get_folder_path, hp, hd, ht]

theorem c10_path_fallback_witness : get_folder_path c10_details 5 [] c10_asset = "/" :=
  c10_path_fallback c10_details 5 [] c10_asset
    (Or.inr (Or.inr (Or.inr ⟨"pp", { id := "pp", type := some "file" }, rfl, rfl, by decide⟩)))

/-- C1 (counterexample): with two review links referencing the same
container `F`, a harvest run fetches `F`'s contents twice — the walk keeps
no visited set — and `F`'s asset is duplicated in the output. -/
theorem c1_counterexample :
    ¬ ((get_all_assets false c1_review_links c1_link_items c1_details
        c1_contents 2 "p1").2.count "F" ≤ 1) ∧
    (get_all_assets false c1_review_links c1_link_items c1_details
        c1_contents 2 "p1").2 = ["F", "F"] ∧
    (get_all_assets false c1_review_links c1_link_items c1_details
        c1_contents 2 "p1").1 = [c1_clip, c1_clip] := by decide

/-- C1 (amended): the walker keeps no visited set — every occurrence of a
container triggers a fresh fetch of its contents.  A folder listed twice
among a parent's children is traversed once per occurrence: the parent's
walk fetches the parent once, then produces the child's fetch trace and
asset list twice over. -/
theorem c1_no_visited_set (flag : Bool) (contents : String → List Item) (fuel : Nat)
    (folder_id folder_name : String) (sub : Item)
    (h1 : should_process_folder flag folder_name = true)
    (h2 : contents folder_id = [sub, sub])
    (h3 : sub.type = some "folder")
    (h4 : should_process_folder flag (sub.name.getD "Unnamed") = true) :
    process_folder flag contents (fuel + 1) folder_id folder_name =
      ((process_folder flag contents fuel sub.id (sub.name.getD "Unnamed")).1 ++
        (process_folder flag contents fuel sub.id (sub.name.getD "Unnamed")).1,
       folder_id ::
        ((process_folder flag contents fuel sub.id (sub.name.getD "Unnamed")).2 ++
          (process_folder flag contents fuel sub.id (sub.name.getD "Unnamed")).2)) := by
  simp [process_folder, h1, h2, h3, h4, collect_assets, collect_trace]

/-- Witness for the amended C1 at a concrete duplicated-child tree. -/
theorem c1_no_visited_set_witness :
    process_folder true c1w_contents 2 "root" "Root" =
      ((process_folder true c1w_contents 1 "A" "Sub").1 ++
        (process_folder true c1w_contents 1 "A" "Sub").1,
       "root" ::
        ((process_folder true c1w_contents 1 "A" "Sub").2 ++
          (process_folder true c1w_contents 1 "A" "Sub").2)) :=
  c1_no_visited_set true c1w_contents 1 "root" "Root" c1w_sub
    (by decide) rfl rfl (by decide)

/-- C8 (counterexample): `"zzz"` is not a substring of `"Alpha"` (so under
the claimed filter semantics an active filter term `"zzz"` would exclude
the asset), yet in every configuration the walker admits — its whole input
surface being the include-old flag, with no filter anywhere — the asset is
included. -/
theorem c8_counterexample :
    has_sub_seq "zzz".data (lower_chars "Alpha") = false ∧
    item_alpha ∈ (process_folder false c8_contents 1 "root" "Root").1 ∧
    item_alpha ∈ (process_folder true c8_contents 1 "root" "Root").1 := by decide

/-- C8 (amended): the walker applies no name filter.  Any child of a
processed folder whose type is one of the recognised leaf kinds is included
in the output, whatever its name. -/
theorem c8_leaf_included (flag : Bool) (contents : String → List Item) (fuel : Nat)
    (folder_id folder_name : String) (item : Item)
    (h1 : should_process_folder flag folder_name = true)
    (h2 : item ∈ contents folder_id)
    (h3 : leaf_kinds.contains (item.type.getD "") = true) :
    item ∈ (process_folder flag contents (fuel + 1) folder_id folder_name).1 := by
  have hnf : ¬ (item.type.getD "" = "folder") := by
    intro hf
    rw [hf] at h3
    exact absurd h3 (by decide)
  have h3m : item.type.getD "" ∈ leaf_kinds := by simpa using h3
  simp only [process_folder, h1, if_true]
  refine mem_collect_assets h2 ?_
  simp [hnf, h3m]

/-- Witness for the amended C8 at a concrete one-asset folder. -/
theorem c8_leaf_included_witness :
    should_process_folder false "Root" = true ∧
    item_alpha ∈ c8_contents "root" ∧
    leaf_kinds.contains (item_alpha.type.getD "") = true ∧
    item_alpha ∈ (process_folder false c8_contents 1 "root" "Root").1 :=
  ⟨by decide, by decide, by decide,
    c8_leaf_included false c8_contents 0 "root" "Root" item_alpha
      (by decide) (by decide) (by decide)⟩

/-- C3: over identical remote data, the run resumed from the checkpoint
`{processed_ids = {a1}, feedback_data = Alpha's partial report}` produces a
final aggregate missing Alpha's feedback — `generate_report` discards the
loaded `feedback_data` and rebuilds from an empty dictionary — so resumed
and uninterrupted reports differ; the checkpointed asset is, as claimed,
not re-fetched. -/
theorem c3_resume_loses_feedback :
    c3_fresh.report = [("/", [c3_alpha_entry, c3_beta_entry])] ∧
    c3_resumed.report = [("/", [c3_beta_entry])] ∧
    c3_resumed.report ≠ c3_fresh.report ∧
    c3_fresh.comments_fetched = ["a1", "a2"] ∧
    c3_resumed.comments_fetched = ["a2"] := by decide

/-- C4: a `generate_report` run performs no progress persistence at all —
its list of `save_progress` calls is empty and the checkpoint store is left
exactly as it was (never written, never cleared), for every input. -/
theorem c4_no_progress_saved (flag : Bool) (store : StoreRead)
    (review_links : String → List String) (link_items : String → List (Option String))
    (details : String → Option Item) (contents : String → List Item)
    (comments_env : String → List Comment) (thumb : Item → Option String)
    (fmt : String → Option String) (now_iso : String) (fuel : Nat) (project_id : String) :
    (generate_report flag store review_links link_items details contents comments_env
        thumb fmt now_iso fuel project_id).saves = [] ∧
    (generate_report flag store review_links link_items details contents comments_env
        thumb fmt now_iso fuel project_id).final_store = store :=
  ⟨rfl, rfl⟩
